import Mathlib

/-
Verification of the Facial Golden Ratio Calculator (src/App.tsx) against its
natural-language specification.

The embedding translates the analysis pipeline of App.tsx into Lean:
machine numbers become exact rationals for landmark coordinates, and reals
for the values produced by Math.sqrt and division.  Stateful React code is
modelled as explicit state records and step relations.
-/

namespace FacialGoldenRatio

/-- A 2-D landmark point, source: the point objects consumed by
calculateDistance (App.tsx line 11).  Coordinates are embedded as exact
rationals. -/
structure Point where
  x : ℚ
  y : ℚ
deriving DecidableEq

/-- App.tsx line 7: const GOLDEN_RATIO = 1.618. -/
noncomputable def GOLDEN_RATIO : ℝ := 1.618

/-- App.tsx line 8: const ANALYSIS_TIMEOUT = 15000 (milliseconds). -/
def ANALYSIS_TIMEOUT : ℕ := 15000

/-- App.tsx lines 11-13: Math.sqrt(Math.pow(p1.x - p2.x, 2) + Math.pow(p1.y - p2.y, 2)). -/
noncomputable def calculateDistance (p1 p2 : Point) : ℝ :=
  Real.sqrt ((((p1.x - p2.x) ^ 2 + (p1.y - p2.y) ^ 2 : ℚ) : ℝ))

/-- One named ratio, source: the object literals at App.tsx lines 213-230. -/
structure RatioMeasurement where
  name : String
  value : ℝ

/-- The per-ratio closeness function, source: the map at App.tsx line 233
(r => 1 - Math.abs(r.value - GOLDEN_RATIO) / GOLDEN_RATIO). -/
noncomputable def closeness (v : ℝ) : ℝ := 1 - |v - GOLDEN_RATIO| / GOLDEN_RATIO

/-- The aggregated score, source: App.tsx lines 233-234:
scores.reduce((acc, s) => acc + s, 0) / scores.length. -/
noncomputable def scoreOf (ratios : List RatioMeasurement) : ℝ :=
  ((ratios.map fun r => closeness r.value).sum) /
    (((ratios.map fun r => closeness r.value).length : ℕ) : ℝ)

/-- The 68-point landmark set returned by the detector; positions is the
indexed array landmarks.positions used at App.tsx lines 212-226. -/
structure FaceLandmarks where
  positions : ℕ → Point

/-- App.tsx line 209: landmarks.getJawOutline().  In face-api the jaw
outline is positions[0..16], so jaw[i] = positions[i]. -/
def getJawOutline (lm : FaceLandmarks) (i : ℕ) : Point := lm.positions i

/-- App.tsx lines 209-232: the three ratio measurements, in source order. -/
noncomputable def computeRatios (lm : FaceLandmarks) : List RatioMeasurement :=
  let jaw := getJawOutline lm
  let faceWidth := calculateDistance (jaw 0) (jaw 16)
  let faceHeight := calculateDistance (lm.positions 8) (lm.positions 27)
  let faceRatio : RatioMeasurement := ⟨"Face Shape (H/W)", faceHeight / faceWidth⟩
  let noseLength := calculateDistance (lm.positions 27) (lm.positions 30)
  let noseWidth := calculateDistance (lm.positions 31) (lm.positions 35)
  let noseRatio : RatioMeasurement := ⟨"Nose Proportions (L/W)", noseLength / noseWidth⟩
  let mouthToChin := calculateDistance (lm.positions 57) (lm.positions 8)
  let noseToMouth := calculateDistance (lm.positions 33) (lm.positions 51)
  let lipsNoseRatio : RatioMeasurement := ⟨"Lip-Chin / Nose-Lip", mouthToChin / noseToMouth⟩
  [faceRatio, noseRatio, lipsNoseRatio]

/-- The value stored by setResults at App.tsx lines 236-240. -/
structure AnalysisResult where
  landmarks : FaceLandmarks
  ratios : List RatioMeasurement
  score : ℝ

/-- App.tsx lines 232-240: build the stored result from a landmark set.
Note that there is no validity check of any kind between the landmark
extraction and setResults. -/
noncomputable def mkResult (lm : FaceLandmarks) : AnalysisResult :=
  { landmarks := lm
    ratios := computeRatios lm
    score := scoreOf (computeRatios lm) }

/-- Typed classification of the error messages set by analyzeImage
(spec section 7); each constructor corresponds to one setError call:
NoFaceDetected line 171, MultipleFacesDetected line 177 (carries the face
count interpolated into the message), DetectionTimeout lines 193/245,
LandmarksNotFound line 203, AnalysisUnexpectedError line 247. -/
inductive Failure
  | NoFaceDetected
  | MultipleFacesDetected (count : ℕ)
  | DetectionTimeout
  | LandmarksNotFound
  | AnalysisUnexpectedError
deriving DecidableEq

/-- Outcome of the Promise.race at App.tsx lines 197-200: either the
landmark pass settled first (with the detectSingleFace value, which may be
null), or the timeout promise settled first. -/
inductive LandmarkOutcome
  | settled (detection : Option FaceLandmarks)
  | timeout

/-- The race at App.tsx lines 185-200: the detection promise settling at
time t (milliseconds) races the setTimeout at ANALYSIS_TIMEOUT; the
detection wins exactly when it settles strictly before the timer fires. -/
def promiseRace (t : ℕ) (d : Option FaceLandmarks) : LandmarkOutcome :=
  if t < ANALYSIS_TIMEOUT then LandmarkOutcome.settled d else LandmarkOutcome.timeout

/-- App.tsx lines 157-252, the analysis pipeline as a function of the two
detector responses: the number of faces found by detectAllFaces (line 168)
and the raced landmark pass outcome (lines 185-206).  The Bool records
whether the single-face landmark pass (detectSingleFace, line 185) was
invoked.  The body mirrors the source control flow: the zero-face guard
(lines 170-174), the multi-face guard (lines 176-180), the timeout
rejection routed through the catch block (lines 190-200 and 242-248), the
null-detection guard (lines 202-206), and the success path (lines 208-240). -/
noncomputable def analyzeImage (allFaces : ℕ) (landmarkPass : LandmarkOutcome) :
    Except Failure AnalysisResult × Bool :=
  if allFaces = 0 then (Except.error Failure.NoFaceDetected, false)
  else if 1 < allFaces then (Except.error (Failure.MultipleFacesDetected allFaces), false)
  else
    match landmarkPass with
    | LandmarkOutcome.timeout => (Except.error Failure.DetectionTimeout, true)
    | LandmarkOutcome.settled none => (Except.error Failure.LandmarksNotFound, true)
    | LandmarkOutcome.settled (some lm) => (Except.ok (mkResult lm), true)

/-- A landmark set in which every anchor pair collapses: all 68 positions
coincide, so in particular jaw[0] = jaw[16]. -/
def degLandmarks : FaceLandmarks := ⟨fun _ => ⟨0, 0⟩⟩

/-- A well-separated sample landmark set (spec section 8 example extended):
jaw endpoints at (0,100) and (200,100), chin (100,160), bridge (100,0),
nose tip (100,60), nose wings (80,70) and (120,70), lower lip (100,130),
nose base (100,80), upper lip (100,95). -/
def sampleLandmarks : FaceLandmarks :=
  ⟨fun i =>
    if i = 0 then ⟨0, 100⟩
    else if i = 16 then ⟨200, 100⟩
    else if i = 8 then ⟨100, 160⟩
    else if i = 27 then ⟨100, 0⟩
    else if i = 30 then ⟨100, 60⟩
    else if i = 31 then ⟨80, 70⟩
    else if i = 35 then ⟨120, 70⟩
    else if i = 57 then ⟨100, 130⟩
    else if i = 33 then ⟨100, 80⟩
    else if i = 51 then ⟨100, 95⟩
    else ⟨0, 0⟩⟩

/-- The three UI modes, App.tsx line 67: useState of the union
select | camera | upload. -/
inductive Mode
  | select
  | camera
  | upload
deriving DecidableEq

/-- The session status taxonomy of spec section 3, derived below from the
component state variables. -/
inductive Status
  | Idle
  | Detecting
  | Succeeded
  | Failed
deriving DecidableEq

/-- The component state owned by App (App.tsx lines 67-71): mode, imageSrc
(here an abstract image handle, a generation number), results, error,
loading (here a Bool: whether the loading message is non-null). -/
structure SessionState where
  mode : Mode
  imageSrc : Option ℕ
  results : Option AnalysisResult
  error : Option Failure
  loading : Bool

/-- The spec status of a session, derived from the state variables: the
spinner (loading) means Detecting, otherwise a stored result means
Succeeded, otherwise a stored error means Failed (matching the rendering
priority of App.tsx lines 340 and 388-426), otherwise Idle. -/
def status (s : SessionState) : Status :=
  if s.loading then Status.Detecting
  else if s.results.isSome then Status.Succeeded
  else if s.error.isSome then Status.Failed
  else Status.Idle

/-- The invariant of spec section 3: exactly one of result and failure is
set when the status is Succeeded or Failed, and both are absent when the
status is Idle or Detecting. -/
def sessionInvariant (s : SessionState) : Prop :=
  (status s = Status.Succeeded → s.results.isSome = true ∧ s.error = none) ∧
  (status s = Status.Failed → s.error.isSome = true ∧ s.results = none) ∧
  (status s = Status.Idle ∨ status s = Status.Detecting →
    s.results = none ∧ s.error = none)

/-- The success continuation of analyzeImage (App.tsx lines 236-240 plus
the finally block at line 250): stores the result and clears the spinner.
It applies unconditionally: the code reads no generation or image-handle
information before calling setResults. -/
def applySuccess (r : AnalysisResult) (s : SessionState) : SessionState :=
  { s with results := some r, loading := false }

/-- The failure continuations of analyzeImage (the setError calls at lines
171, 177, 203, 245, 247, each followed by clearing the spinner).  Like
applySuccess, applied unconditionally. -/
def applyFailure (f : Failure) (s : SessionState) : SessionState :=
  { s with error := some f, loading := false }

/-- One session plus the enclosing asynchronous context: nextGen supplies
fresh image handles, and pending lists the generations with an in-flight
analyzeImage call that has not yet settled. -/
structure World where
  session : SessionState
  nextGen : ℕ
  pending : List ℕ

/-- The initial world: the component after mount and model load, mode
select (App.tsx line 67), nothing loaded. -/
def initWorld : World :=
  { session :=
      { mode := Mode.select, imageSrc := none, results := none
        error := none, loading := false }
    nextGen := 0
    pending := [] }

/-- Event-step relation of the running component.  Each constructor is one
handler of App.tsx, guarded by the render conditions under which the
triggering control is actually reachable:
modeSelect-(camera|upload) is handleModeSelect (lines 115-127), reachable
only from the Get Started screen (line 347: mode select and not loading);
loadImage is handleFileChange plus the imageSrc effect starting
analyzeImage (lines 133-142 and 254-263), reachable only from the
guidelines screen (line 373: mode upload, no imageSrc, not loading);
captureImage is handleCapture (lines 144-155), reachable from the camera
view (line 361);
settleSuccess and settleFailure are the settlement of a pending
analyzeImage call, applying its continuation unconditionally;
reUploadEv is reUpload (lines 314-321), reachable from the error screen
(lines 410-423: mode upload with a stored error, spinner gone);
resetEv is reset (lines 304-312), reachable from several screens, all of
which require the spinner to be gone.
analyzeImage begins by setting the spinner and clearing results and error
(lines 160-162), so loadImage and captureImage enter that state directly
while registering the new pending generation; the code never cancels an
in-flight call, so pending is only consed onto. -/
inductive Step : World → World → Prop
  | modeSelectCamera (w : World) (hm : w.session.mode = Mode.select)
      (hl : w.session.loading = false) :
      Step w { session := { mode := Mode.camera, imageSrc := none, results := none
                            error := none, loading := false }
               nextGen := w.nextGen, pending := w.pending }
  | modeSelectUpload (w : World) (hm : w.session.mode = Mode.select)
      (hl : w.session.loading = false) :
      Step w { session := { mode := Mode.upload, imageSrc := none, results := none
                            error := none, loading := false }
               nextGen := w.nextGen, pending := w.pending }
  | loadImage (w : World) (hm : w.session.mode = Mode.upload)
      (hi : w.session.imageSrc = none) (hl : w.session.loading = false) :
      Step w { session := { mode := Mode.upload, imageSrc := some w.nextGen
                            results := none, error := none, loading := true }
               nextGen := w.nextGen + 1, pending := w.nextGen :: w.pending }
  | captureImage (w : World) (hm : w.session.mode = Mode.camera) :
      Step w { session := { mode := Mode.upload, imageSrc := some w.nextGen
                            results := none, error := none, loading := true }
               nextGen := w.nextGen + 1, pending := w.nextGen :: w.pending }
  | settleSuccess (w : World) (g : ℕ) (r : AnalysisResult) (hg : g ∈ w.pending) :
      Step w { session := applySuccess r w.session
               nextGen := w.nextGen, pending := w.pending.erase g }
  | settleFailure (w : World) (g : ℕ) (f : Failure) (hg : g ∈ w.pending) :
      Step w { session := applyFailure f w.session
               nextGen := w.nextGen, pending := w.pending.erase g }
  | reUploadEv (w : World) (hm : w.session.mode = Mode.upload)
      (he : w.session.error.isSome = true) (hl : w.session.loading = false) :
      Step w { session := { mode := Mode.upload, imageSrc := none, results := none
                            error := none, loading := false }
               nextGen := w.nextGen, pending := w.pending }
  | resetEv (w : World) (hl : w.session.loading = false) :
      Step w { session := { mode := Mode.select, imageSrc := none, results := none
                            error := none, loading := false }
               nextGen := w.nextGen, pending := w.pending }

/-- Reachability of worlds under the event-step relation. -/
abbrev Reachable : World → World → Prop := Relation.ReflTransGen Step

/-- The inductive invariant of the running component: the session invariant
holds, and either no analysis is in flight, or exactly one is, it belongs
to the currently loaded image, and the session shows the spinner with
results and error cleared. -/
def WorldInv (w : World) : Prop :=
  sessionInvariant w.session ∧
  (w.pending = [] ∨
    ∃ g, w.pending = [g] ∧ w.session.imageSrc = some g ∧
      w.session.loading = true ∧ w.session.mode = Mode.upload ∧
      w.session.results = none ∧ w.session.error = none)

/-- The world after choosing Upload Photo from the start screen. -/
def wUploadW : World :=
  { session :=
      { mode := Mode.upload, imageSrc := none, results := none
        error := none, loading := false }
    nextGen := 0
    pending := [] }

/-- The world after loading image 0: analysis for generation 0 in flight. -/
def wDetectingW : World :=
  { session :=
      { mode := Mode.upload, imageSrc := some 0, results := none
        error := none, loading := true }
    nextGen := 1
    pending := [0] }

/-- A session state belonging to a newer image (handle 1) with a fresh
detection in flight. -/
def demoSession : SessionState :=
  { mode := Mode.upload, imageSrc := some 1, results := none
    error := none, loading := true }

/-- A concrete analysis result, as would be produced by a landmark pass on
an earlier image. -/
noncomputable def demoResult : AnalysisResult := mkResult sampleLandmarks

/-- A media stream as its list of tracks; each entry records whether that
track is still active (track.stop() sets it to false). -/
abbrev MediaStreamT : Type := List Bool

/-- Stopping every track of a stream, source: App.tsx line 110:
stream.getTracks().forEach(track => track.stop()). -/
def stopTracks (s : MediaStreamT) : MediaStreamT := s.map fun _ => false

/-- The camera-facing state of the component: the current mode, the number
of outstanding getUserMedia requests, the stream attached to
videoRef.current.srcObject (if any), and every granted stream that is no
longer (or was never) attached to the video element. -/
structure CamState where
  mode : Mode
  pendingRequests : ℕ
  srcObject : Option MediaStreamT
  orphaned : List MediaStreamT

/-- App.tsx lines 107-113: stopVideoStream stops the tracks of the stream
attached to videoRef.current.srcObject, then detaches it.  A stream that
is not attached to the video element is not touched. -/
def stopVideoStream (c : CamState) : CamState :=
  match c.srcObject with
  | none => c
  | some s => { c with srcObject := none, orphaned := stopTracks s :: c.orphaned }

/-- Number of still-active media tracks across every stream ever granted. -/
def activeTrackCount (c : CamState) : ℕ :=
  (match c.srcObject with
   | none => 0
   | some s => (s.filter fun b => b).length) +
  ((c.orphaned.map fun s => (s.filter fun b => b).length).sum)

/-- App.tsx lines 304-312: reset stops the video stream and returns to the
source-selection screen. -/
def reset (c : CamState) : CamState :=
  { stopVideoStream c with mode := Mode.select }

/-- App.tsx lines 144-155: handleCapture draws the frame, stops the video
stream and switches to upload mode. -/
def handleCapture (c : CamState) : CamState :=
  { stopVideoStream c with mode := Mode.upload }

/-- App.tsx lines 119-121: selecting the camera enters camera mode and
issues a getUserMedia request (startVideoStream, line 97). -/
def enterCamera (c : CamState) : CamState :=
  { c with mode := Mode.camera, pendingRequests := c.pendingRequests + 1 }

/-- Resolution of a getUserMedia request with a stream of n live tracks,
source: App.tsx lines 97-100.  The code attaches the stream only when
videoRef.current exists; the video element is rendered only in camera mode
(line 361-363), so a grant arriving in any other mode leaves the stream
granted but unattached - and nothing in App.tsx ever stops a stream that
is not attached to the video element. -/
def grantStream (n : ℕ) (c : CamState) : CamState :=
  if c.mode = Mode.camera then
    { c with pendingRequests := c.pendingRequests - 1
             srcObject := some (List.replicate n true)
             orphaned :=
               match c.srcObject with
               | none => c.orphaned
               | some s => s :: c.orphaned }
  else
    { c with pendingRequests := c.pendingRequests - 1
             orphaned := List.replicate n true :: c.orphaned }

/-- Event-step relation for the camera resource: entering camera mode from
the start screen, a pending request resolving (grant) or being denied
(App.tsx lines 101-104), capturing, and resetting. -/
inductive CamStep : CamState → CamState → Prop
  | enter (c : CamState) (hm : c.mode = Mode.select) : CamStep c (enterCamera c)
  | grant (c : CamState) (n : ℕ) (hp : 0 < c.pendingRequests) :
      CamStep c (grantStream n c)
  | deny (c : CamState) (hp : 0 < c.pendingRequests) :
      CamStep c { c with pendingRequests := c.pendingRequests - 1, mode := Mode.select }
  | capture (c : CamState) (hm : c.mode = Mode.camera) : CamStep c (handleCapture c)
  | resetC (c : CamState) : CamStep c (reset c)

/-- Reachability of camera states. -/
abbrev CamReachable : CamState → CamState → Prop := Relation.ReflTransGen CamStep

/-- Initial camera state: start screen, no request, no stream. -/
def camInit : CamState :=
  { mode := Mode.select, pendingRequests := 0, srcObject := none, orphaned := [] }

/-- Camera mode entered, permission prompt still pending. -/
def camLive : CamState := enterCamera camInit

/-- The user pressed Cancel (reset) while the permission prompt was still
pending. -/
def camAfterReset : CamState := reset camLive

/-- The pending getUserMedia request then resolves with a two-track
stream: the video element is gone, so the stream is never attached and
never stopped. -/
def camLeaked : CamState := grantStream 2 camAfterReset

/-- A camera state with a two-track live stream attached and no orphaned
streams: the ordinary CameraLive state. -/
def camAttached : CamState :=
  { mode := Mode.camera, pendingRequests := 0
    srcObject := some [true, true], orphaned := [] }

/-- Helper: the distance from a point to itself is zero. -/
theorem calculateDistance_self (p : Point) : calculateDistance p p = 0 := by
  simp [calculateDistance]

/-- Helper: the distance between two distinct points is strictly positive. -/
theorem calculateDistance_pos (p q : Point) (h : p ≠ q) :
    0 < calculateDistance p q := by
  unfold calculateDistance
  apply Real.sqrt_pos.mpr
  have hxy : p.x ≠ q.x ∨ p.y ≠ q.y := by
    by_contra hc
    push_neg at hc
    apply h
    cases p with
    | mk px py =>
      cases q with
      | mk qx qy =>
        simp only at hc
        rw [hc.1, hc.2]
  have hq : (0 : ℚ) < (p.x - q.x) ^ 2 + (p.y - q.y) ^ 2 := by
    rcases hxy with hx | hy
    · have h1 : (0 : ℚ) < (p.x - q.x) ^ 2 :=
        pow_two_pos_of_ne_zero (sub_ne_zero.mpr hx)
      nlinarith [sq_nonneg (p.y - q.y)]
    · have h1 : (0 : ℚ) < (p.y - q.y) ^ 2 :=
        pow_two_pos_of_ne_zero (sub_ne_zero.mpr hy)
      nlinarith [sq_nonneg (p.x - q.x)]
  exact_mod_cast hq

/-- C10: for every pair of 2-D points, calculateDistance is symmetric and
its result is non-negative. -/
theorem calculateDistance_symm_nonneg (p1 p2 : Point) :
    calculateDistance p1 p2 = calculateDistance p2 p1 ∧
    0 ≤ calculateDistance p1 p2 := by
  constructor
  · unfold calculateDistance
    have h : ((p1.x - p2.x) ^ 2 + (p1.y - p2.y) ^ 2 : ℚ) =
        (p2.x - p1.x) ^ 2 + (p2.y - p1.y) ^ 2 := by ring
    rw [h]
  · exact Real.sqrt_nonneg _

/-- C4: when the coarse pass finds zero faces, the pipeline fails with
NoFaceDetected and the landmark pass is not invoked, whatever its outcome
would have been. -/
theorem zero_faces_no_face_detected (lp : LandmarkOutcome) :
    analyzeImage 0 lp = (Except.error Failure.NoFaceDetected, false) := rfl

/-- C5: when the coarse pass finds more than one face, the pipeline fails
with MultipleFacesDetected carrying the detected count, and the landmark
pass is not invoked. -/
theorem multiple_faces_detected (n : ℕ) (lp : LandmarkOutcome) (h : 1 < n) :
    analyzeImage n lp = (Except.error (Failure.MultipleFacesDetected n), false) := by
  unfold analyzeImage
  rw [if_neg (by omega), if_pos h]

/-- Witness for C5 at two faces. -/
theorem multiple_faces_detected_witness :
    analyzeImage 2 LandmarkOutcome.timeout =
      (Except.error (Failure.MultipleFacesDetected 2), false) :=
  multiple_faces_detected 2 LandmarkOutcome.timeout (by decide)

/-- C6: the landmark pass is raced against the fixed 15000 ms timeout;
whenever the detection has not settled strictly before the timer fires
(so the timeout settles first), the pipeline fails with DetectionTimeout
instead of waiting on the detector. -/
theorem timeout_wins_detection_timeout :
    ANALYSIS_TIMEOUT = 15000 ∧
    ∀ (t : ℕ) (d : Option FaceLandmarks), ANALYSIS_TIMEOUT ≤ t →
      analyzeImage 1 (promiseRace t d) =
        (Except.error Failure.DetectionTimeout, true) := by
  refine ⟨rfl, ?_⟩
  intro t d h
  unfold promiseRace
  rw [if_neg (not_lt.mpr h)]
  rfl

/-- Witness for C6: a landmark pass that would settle at 20000 ms loses the
race and the pipeline reports DetectionTimeout. -/
theorem timeout_wins_detection_timeout_witness :
    analyzeImage 1 (promiseRace 20000 none) =
      (Except.error Failure.DetectionTimeout, true) :=
  timeout_wins_detection_timeout.2 20000 none (by decide)

/-- C1: for every list of exactly three ratio measurements the aggregated
score is the arithmetic mean of the per-ratio closeness values
1 - |value - 1.618| / 1.618; for the ratios [1.618, 1.618, 1.618] the
score is exactly 1; and the calculator applies no clamping: every ratio
value greater than 2 * 1.618 = 3.236 has negative closeness, and a list of
such values pulls the score below 0. -/
theorem score_unclamped_mean :
    (∀ a b c : RatioMeasurement,
      scoreOf [a, b, c] =
        (closeness a.value + closeness b.value + closeness c.value) / 3) ∧
    scoreOf [⟨"Face Shape (H/W)", GOLDEN_RATIO⟩,
             ⟨"Nose Proportions (L/W)", GOLDEN_RATIO⟩,
             ⟨"Lip-Chin / Nose-Lip", GOLDEN_RATIO⟩] = 1 ∧
    (∀ v : ℝ, 2 * GOLDEN_RATIO < v → closeness v < 0) ∧
    scoreOf [⟨"Face Shape (H/W)", 4⟩,
             ⟨"Nose Proportions (L/W)", 4⟩,
             ⟨"Lip-Chin / Nose-Lip", 4⟩] < 0 := by
  have hmean : ∀ a b c : RatioMeasurement,
      scoreOf [a, b, c] =
        (closeness a.value + closeness b.value + closeness c.value) / 3 := by
    intro a b c
    simp only [scoreOf, List.map_cons, List.map_nil, List.sum_cons, List.sum_nil,
      List.length_cons, List.length_nil]
    norm_num
    ring
  have hneg : ∀ v : ℝ, 2 * GOLDEN_RATIO < v → closeness v < 0 := by
    intro v hv
    have hphi : (0 : ℝ) < GOLDEN_RATIO := by norm_num [ GOLDEN_RATIO]
    have h1 : GOLDEN_RATIO < v - GOLDEN_RATIO := by linarith
    have habs : |v - GOLDEN_RATIO| = v - GOLDEN_RATIO :=
      abs_of_pos (by linarith)
    unfold closeness
    rw [habs, sub_neg, lt_div_iff₀ hphi]
    linarith
  refine ⟨hmean, ?_, hneg, ?_⟩
  · rw [hmean]
    simp only [closeness, sub_self, abs_zero, zero_div, sub_zero]
    norm_num
  · rw [hmean]
    have h4 : closeness 4 < 0 := by
      apply hneg
      norm_num [ GOLDEN_RATIO]
    simp only
    linarith

/-- Witness for C1: the closeness of the ratio value 4 (which exceeds
3.236) is negative. -/
theorem score_unclamped_mean_witness : closeness 4 < 0 :=
  score_unclamped_mean.2.2.1 4 (by norm_num [ GOLDEN_RATIO])

/-- C7: for every landmark set whose six anchor pairs (jaw 0-16,
chin 8 - bridge 27, bridge 27 - tip 30, wing 31 - wing 35,
lip 57 - chin 8, base 33 - lip 51) are each non-degenerate, computeRatios
returns exactly three measurements, in the fixed name order
Face Shape (H/W), Nose Proportions (L/W), Lip-Chin / Nose-Lip, and every
value is strictly positive. -/
theorem compute_ratios_shape (lm : FaceLandmarks)
    (h1 : lm.positions 0 ≠ lm.positions 16)
    (h2 : lm.positions 8 ≠ lm.positions 27)
    (h3 : lm.positions 27 ≠ lm.positions 30)
    (h4 : lm.positions 31 ≠ lm.positions 35)
    (h5 : lm.positions 57 ≠ lm.positions 8)
    (h6 : lm.positions 33 ≠ lm.positions 51) :
    (computeRatios lm).length = 3 ∧
    (computeRatios lm).map (fun m => m.name) =
      ["Face Shape (H/W)", "Nose Proportions (L/W)", "Lip-Chin / Nose-Lip"] ∧
    ∀ m ∈ computeRatios lm, 0 < m.value := by
  refine ⟨rfl, rfl, ?_⟩
  intro m hm
  simp only [computeRatios, getJawOutline, List.mem_cons, List.not_mem_nil,
    or_false] at hm
  rcases hm with rfl | rfl | rfl
  · exact div_pos (calculateDistance_pos _ _ h2) (calculateDistance_pos _ _ h1)
  · exact div_pos (calculateDistance_pos _ _ h3) (calculateDistance_pos _ _ h4)
  · exact div_pos (calculateDistance_pos _ _ h5) (calculateDistance_pos _ _ h6)

/-- Witness for C7 at the sample landmark set. -/
theorem compute_ratios_shape_witness :
    (computeRatios sampleLandmarks).length = 3 ∧
    (computeRatios sampleLandmarks).map (fun m => m.name) =
      ["Face Shape (H/W)", "Nose Proportions (L/W)", "Lip-Chin / Nose-Lip"] ∧
    ∀ m ∈ computeRatios sampleLandmarks, 0 < m.value :=
  compute_ratios_shape sampleLandmarks (by decide) (by decide) (by decide)
    (by decide) (by decide) (by decide)

/-- Counterexample to C2: on a landmark set whose jaw anchor pair
collapses to zero distance (all positions coincide), the pipeline does not
produce a LandmarksNotFound failure; it returns a success result, computed
straight through the zero denominator. -/
theorem degenerate_landmarks_not_rejected :
    degLandmarks.positions 0 = degLandmarks.positions 16 ∧
    analyzeImage 1 (LandmarkOutcome.settled (some degLandmarks)) =
      (Except.ok (mkResult degLandmarks), true) ∧
    analyzeImage 1 (LandmarkOutcome.settled (some degLandmarks)) ≠
      (Except.error Failure.LandmarksNotFound, true) := by
  refine ⟨rfl, rfl, ?_⟩
  intro h
  have h1 : (Except.ok (mkResult degLandmarks) : Except Failure AnalysisResult) =
      Except.error Failure.LandmarksNotFound := congrArg Prod.fst h
  simp at h1

/-- C2 amended: the code performs no post-hoc validity check.  A settled
non-null detection always yields a success result, even when the jaw
anchor pair collapses to zero distance; in that case the face-width
denominator of the stored Face Shape ratio is exactly 0 (JavaScript
evaluates the stored quotient to Infinity or NaN). -/
theorem no_degeneracy_check (lm : FaceLandmarks)
    (h : lm.positions 0 = lm.positions 16) :
    analyzeImage 1 (LandmarkOutcome.settled (some lm)) =
      (Except.ok (mkResult lm), true) ∧
    calculateDistance (getJawOutline lm 0) (getJawOutline lm 16) = 0 := by
  refine ⟨rfl, ?_⟩
  unfold getJawOutline
  rw [h]
  exact calculateDistance_self _

/-- Witness for the amended C2 at the fully collapsed landmark set. -/
theorem no_degeneracy_check_witness :
    analyzeImage 1 (LandmarkOutcome.settled (some degLandmarks)) =
      (Except.ok (mkResult degLandmarks), true) ∧
    calculateDistance (getJawOutline degLandmarks 0)
      (getJawOutline degLandmarks 16) = 0 :=
  no_degeneracy_check degLandmarks rfl

/-- Helper: a session with no stored result and no stored error satisfies
the invariant. -/
theorem sessionInvariant_of_none {s : SessionState}
    (hr : s.results = none) (he : s.error = none) : sessionInvariant s := by
  cases hl : s.loading <;> simp [sessionInvariant, status, hr, he, hl]

/-- Helper: applying the success continuation to a session whose error is
cleared yields an invariant-respecting Succeeded session. -/
theorem sessionInvariant_applySuccess {s : SessionState} (r : AnalysisResult)
    (he : s.error = none) : sessionInvariant (applySuccess r s) := by
  simp [sessionInvariant, status, applySuccess, he]

/-- Helper: applying a failure continuation to a session whose results are
cleared yields an invariant-respecting Failed session. -/
theorem sessionInvariant_applyFailure {s : SessionState} (f : Failure)
    (hr : s.results = none) : sessionInvariant (applyFailure f s) := by
  simp [sessionInvariant, status, applyFailure, hr]

/-- Helper: when the spinner is gone, no analysis is in flight. -/
theorem pending_nil_of_not_loading {w : World} (inv : WorldInv w)
    (hl : w.session.loading = false) : w.pending = [] := by
  rcases inv.2 with h | ⟨g, hp, himg, hload, hrest⟩
  · exact h
  · rw [hload] at hl
    cases hl

/-- Helper: in camera mode, no analysis is in flight. -/
theorem pending_nil_of_mode_camera {w : World} (inv : WorldInv w)
    (hm : w.session.mode = Mode.camera) : w.pending = [] := by
  rcases inv.2 with h | ⟨g, hp, himg, hload, hmode, hrest⟩
  · exact h
  · rw [hmode] at hm
    cases hm

/-- Helper: each event step preserves the inductive invariant. -/
theorem step_preserves_worldInv {w w1 : World} (ih : WorldInv w)
    (hstep : Step w w1) : WorldInv w1 := by
  cases hstep with
  | modeSelectCamera hm hl =>
    have hp : w.pending = [] := pending_nil_of_not_loading ih hl
    exact ⟨sessionInvariant_of_none rfl rfl, Or.inl hp⟩
  | modeSelectUpload hm hl =>
    have hp : w.pending = [] := pending_nil_of_not_loading ih hl
    exact ⟨sessionInvariant_of_none rfl rfl, Or.inl hp⟩
  | loadImage hm hi hl =>
    refine ⟨sessionInvariant_of_none rfl rfl,
      Or.inr ⟨w.nextGen, ?_, rfl, rfl, rfl, rfl, rfl⟩⟩
    rw [show ({ session := { mode := Mode.upload, imageSrc := some w.nextGen
                             results := none, error := none, loading := true }
                nextGen := w.nextGen + 1
                pending := w.nextGen :: w.pending } : World).pending =
          w.nextGen :: w.pending from rfl,
        pending_nil_of_not_loading ih hl]
  | captureImage hm =>
    refine ⟨sessionInvariant_of_none rfl rfl,
      Or.inr ⟨w.nextGen, ?_, rfl, rfl, rfl, rfl, rfl⟩⟩
    rw [show ({ session := { mode := Mode.upload, imageSrc := some w.nextGen
                             results := none, error := none, loading := true }
                nextGen := w.nextGen + 1
                pending := w.nextGen :: w.pending } : World).pending =
          w.nextGen :: w.pending from rfl,
        pending_nil_of_mode_camera ih hm]
  | settleSuccess g r hg =>
    rcases ih.2 with hnil | ⟨g1, hp, himg, hload, hmode, hres, herr⟩
    · rw [hnil] at hg
      cases hg
    · rw [hp] at hg
      have hgg : g = g1 := List.mem_singleton.mp hg
      refine ⟨sessionInvariant_applySuccess r herr, Or.inl ?_⟩
      show w.pending.erase g = []
      rw [hp, hgg]
      simp
  | settleFailure g f hg =>
    rcases ih.2 with hnil | ⟨g1, hp, himg, hload, hmode, hres, herr⟩
    · rw [hnil] at hg
      cases hg
    · rw [hp] at hg
      have hgg : g = g1 := List.mem_singleton.mp hg
      refine ⟨sessionInvariant_applyFailure f hres, Or.inl ?_⟩
      show w.pending.erase g = []
      rw [hp, hgg]
      simp
  | reUploadEv hm he hl =>
    have hp : w.pending = [] := pending_nil_of_not_loading ih hl
    exact ⟨sessionInvariant_of_none rfl rfl, Or.inl hp⟩
  | resetEv hl =>
    have hp : w.pending = [] := pending_nil_of_not_loading ih hl
    exact ⟨sessionInvariant_of_none rfl rfl, Or.inl hp⟩

/-- Helper: the inductive invariant holds in every reachable world. -/
theorem worldInv_of_reachable {w : World} (h : Reachable initWorld w) :
    WorldInv w := by
  induction h with
  | refl =>
    exact ⟨sessionInvariant_of_none rfl rfl, Or.inl rfl⟩
  | tail hr hstep ih =>
    exact step_preserves_worldInv ih hstep

/-- C8: in every reachable session state, exactly one of result and
failure is set when the status is Succeeded or Failed and both are absent
otherwise; and every step that enters the Detecting state (loading a new
image, which immediately starts a detection) does so with result and
failure cleared. -/
theorem session_state_invariant :
    (∀ w, Reachable initWorld w → sessionInvariant w.session) ∧
    (∀ w w1, Step w w1 → w1.session.loading = true →
      w1.session.results = none ∧ w1.session.error = none) := by
  constructor
  · intro w h
    exact (worldInv_of_reachable h).1
  · intro w w1 hstep hl
    cases hstep with
    | modeSelectCamera hm hl2 => cases hl
    | modeSelectUpload hm hl2 => cases hl
    | loadImage hm hi hl2 => exact ⟨rfl, rfl⟩
    | captureImage hm => exact ⟨rfl, rfl⟩
    | settleSuccess g r hg => simp [applySuccess] at hl
    | settleFailure g f hg => simp [applyFailure] at hl
    | reUploadEv hm he hl2 => cases hl
    | resetEv hl2 => cases hl

/-- Helper: the world with image 0 loaded and its detection in flight is
reachable from the initial world (choose Upload Photo, then select a
file). -/
theorem reachable_wDetectingW : Reachable initWorld wDetectingW :=
  Relation.ReflTransGen.tail
    (Relation.ReflTransGen.single (Step.modeSelectUpload initWorld rfl rfl))
    (Step.loadImage wUploadW rfl rfl rfl)

/-- Witness for C8: the invariant holds at the initial world, and the
load-image step enters Detecting with results and error cleared. -/
theorem session_state_invariant_witness :
    sessionInvariant initWorld.session ∧
    (wDetectingW.session.results = none ∧ wDetectingW.session.error = none) :=
  ⟨session_state_invariant.1 initWorld Relation.ReflTransGen.refl,
   session_state_invariant.2 wUploadW wDetectingW
     (Step.loadImage wUploadW rfl rfl rfl) rfl⟩

/-- Counterexample to C3: the settlement continuation of analyzeImage
(App.tsx lines 236-240) is applied to whatever session state is current,
with no generation or image-handle identity check: applied to a session
that belongs to a newer image (handle 1), a result computed for an earlier
image is stored rather than discarded, mutating that session state. -/
theorem late_settlement_mutates :
    demoSession.imageSrc = some 1 ∧
    demoSession.results = none ∧
    (applySuccess demoResult demoSession).results = some demoResult ∧
    applySuccess demoResult demoSession ≠ demoSession := by
  refine ⟨rfl, rfl, rfl, ?_⟩
  intro h
  have h1 : (applySuccess demoResult demoSession).results = demoSession.results :=
    congrArg SessionState.results h
  rw [show (applySuccess demoResult demoSession).results = some demoResult from rfl,
      show demoSession.results = none from rfl] at h1
  cases h1

/-- C3 amended: analyzeImage contains no generation or image-handle
identity check - its settlement continuations store their outcome
unconditionally, never reading the current image handle.  A stale
settlement never corrupts a newer session only because of the rendering
structure: while a detection is in flight no control that loads a new
image or resets the session is reachable, so in every reachable world the
generation of an in-flight landmark pass equals the handle of the
currently loaded image - a settlement is never superseded. -/
theorem no_generation_guard :
    (∀ (s : SessionState) (r : AnalysisResult),
      (applySuccess r s).results = some r ∧
      (applySuccess r s).imageSrc = s.imageSrc ∧
      (applySuccess r s).error = s.error) ∧
    (∀ w, Reachable initWorld w → ∀ g, g ∈ w.pending →
      w.session.imageSrc = some g) := by
  constructor
  · intro s r
    exact ⟨rfl, rfl, rfl⟩
  · intro w h g hg
    rcases (worldInv_of_reachable h).2 with hnil | ⟨g1, hp, himg, hrest⟩
    · rw [hnil] at hg
      cases hg
    · rw [hp] at hg
      rw [List.mem_singleton.mp hg]
      exact himg

/-- Witness for the amended C3: the continuation stores its result
whatever the session state, and in the reachable in-flight world the
pending generation is the current image handle. -/
theorem no_generation_guard_witness :
    (applySuccess demoResult demoSession).imageSrc = demoSession.imageSrc ∧
    wDetectingW.session.imageSrc = some 0 :=
  ⟨(no_generation_guard.1 demoSession demoResult).2.1,
   no_generation_guard.2 wDetectingW reachable_wDetectingW 0 (by decide)⟩

/-- Helper: a stream whose tracks have all been stopped has no active
track. -/
theorem stopTracks_active (s : MediaStreamT) :
    ((stopTracks s).filter fun b => b).length = 0 := by
  simp [stopTracks]

/-- Counterexample to C9: the user enters CameraLive (the getUserMedia
permission request is pending) and presses Cancel, which resets the
session while CameraLive.  The request then resolves: mode is no longer
camera, the video element is unmounted, so the granted two-track stream is
never attached to videoRef and never stopped.  Afterward the session has
two active media tracks, not zero. -/
theorem reset_during_pending_leaks_tracks :
    camLive.mode = Mode.camera ∧
    camAfterReset = reset camLive ∧
    CamReachable camInit camLeaked ∧
    activeTrackCount camLeaked = 2 := by
  refine ⟨rfl, rfl, ?_, by decide⟩
  have s1 : CamStep camInit camLive := CamStep.enter camInit rfl
  have s2 : CamStep camLive camAfterReset := CamStep.resetC camLive
  have s3 : CamStep camAfterReset camLeaked :=
    CamStep.grant camAfterReset 2 (by decide)
  exact Relation.ReflTransGen.tail
    (Relation.ReflTransGen.tail (Relation.ReflTransGen.single s1) s2) s3

/-- C9 amended: every path that leaves CameraLive - capture, cancel, or
reset (cancel invokes reset) - stops all tracks of the stream attached to
the video element.  Hence, provided no granted stream was left unattached
(in particular whenever the stream acquisition completed while still in
CameraLive), resetting or capturing leaves zero active media tracks.  A
getUserMedia grant resolving after CameraLive was exited, however, is
never attached and never stopped, so its tracks stay active (see the
counterexample). -/
theorem exit_paths_stop_attached_tracks (c : CamState)
    (horph : ((c.orphaned.map fun s => (s.filter fun b => b).length).sum) = 0) :
    activeTrackCount (reset c) = 0 ∧ activeTrackCount (handleCapture c) = 0 := by
  have hstop : activeTrackCount (stopVideoStream c) = 0 := by
    unfold stopVideoStream
    cases hsrc : c.srcObject with
    | none =>
      unfold activeTrackCount
      rw [hsrc]
      simpa using horph
    | some s =>
      unfold activeTrackCount
      simp only [List.map_cons, List.sum_cons, stopTracks_active, Nat.zero_add]
      simpa using horph
  constructor
  · show activeTrackCount { stopVideoStream c with mode := Mode.select } = 0
    rw [show activeTrackCount { stopVideoStream c with mode := Mode.select } =
        activeTrackCount (stopVideoStream c) from rfl]
    exact hstop
  · show activeTrackCount { stopVideoStream c with mode := Mode.upload } = 0
    rw [show activeTrackCount { stopVideoStream c with mode := Mode.upload } =
        activeTrackCount (stopVideoStream c) from rfl]
    exact hstop

/-- Witness for the amended C9: resetting or capturing from the ordinary
CameraLive state (a live two-track stream attached, nothing orphaned)
leaves zero active tracks. -/
theorem exit_paths_stop_attached_tracks_witness :
    activeTrackCount (reset camAttached) = 0 ∧
    activeTrackCount (handleCapture camAttached) = 0 :=
  exit_paths_stop_attached_tracks camAttached (by decide)

end FacialGoldenRatio
